import Mathlib

/-!
# Verification of the gozix/viper configuration bundle

A shallow embedding of the viper bundle adapter: the functional-option
constructors (`NewBundle`, `NewBundleWithConfig` and the seven `Option`
values), and the two DI providers of the v3 source (`provideViper`,
`provideFlagSet`).  The underlying spf13 libraries (viper's `ReadInConfig`
and key-to-environment-variable mapping, pflag's argument parsing) are
external collaborators; where a claim depends on them they are modelled
from the specification, and each such definition says so in its doc
comment.
-/

namespace GozixViper

/-- A key replacer, as built by `strings.NewReplacer(".", "_")`.  The repo
only ever constructs single-character replacement pairs, so the model keeps
a list of character pairs. -/
abbrev Replacer := List (Char × Char)

/-- The slice of `viper.Viper` state touched by this bundle: one field per
underlying setter the bundle's options call (`AutomaticEnv`,
`SetEnvPrefix`, `SetEnvKeyReplacer`, `SetConfigFile`, `SetConfigName`,
`SetConfigType`), plus the list of search paths grown by `AddConfigPath`. -/
structure ViperState where
  automaticEnvOn : Bool
  envPrefix : String
  envKeyReplacer : Option Replacer
  configFile : Option String
  configName : String
  configType : Option String
  configPaths : List String
  deriving Repr, DecidableEq

/-- The state produced by `viper.New()`: nothing enabled or set, the
library's own default config name `"config"`, no search paths. -/
def viperNew : ViperState :=
  { automaticEnvOn := false
    envPrefix := ""
    envKeyReplacer := none
    configFile := none
    configName := "config"
    configType := none
    configPaths := [] }

/-- The bundle's `Option` values, one constructor per option function of
the source (`AutomaticEnv`, `EnvPrefix`, `EnvKeyReplacer`, `ConfigFile`,
`ConfigName`, `ConfigPath`, `ConfigType`). -/
inductive BOption
  | automaticEnv
  | envPrefix (value : String)
  | envKeyReplacer (value : Replacer)
  | configFile (value : String)
  | configName (value : String)
  | configPath (value : String)
  | configType (value : String)
  deriving Repr, DecidableEq

/-- `option.apply(&bundle)`: the single underlying call each option wraps.
`ConfigPath` appends to the search-path list (`AddConfigPath`); every other
option overwrites its field. -/
def applyOption (s : ViperState) : BOption → ViperState
  | .automaticEnv => { s with automaticEnvOn := true }
  | .envPrefix v => { s with envPrefix := v }
  | .envKeyReplacer r => { s with envKeyReplacer := some r }
  | .configFile v => { s with configFile := some v }
  | .configName v => { s with configName := v }
  | .configPath v => { s with configPaths := s.configPaths ++ [v] }
  | .configType v => { s with configType := some v }

/-- `NewBundleWithConfig`: start from `viper.New()` and apply the options
in order. -/
def NewBundleWithConfig (options : List BOption) : ViperState :=
  options.foldl applyOption viperNew

/-- The five default options `NewBundle` prepends. -/
def defaultOptions : List BOption :=
  [ .automaticEnv
  , .envPrefix "ENV"
  , .envKeyReplacer [('.', '_')]
  , .configName "config"
  , .configType "json" ]

/-- `NewBundle(options...)` of the v3 source: the default options first,
then the caller's options.  The v1 source's `NewBundle()` takes no options
and equals `NewBundle []`. -/
def NewBundle (options : List BOption) : ViperState :=
  NewBundleWithConfig (defaultOptions ++ options)

/-- One pflag flag: name, shorthand, current value, usage string.  The
bundle registers exactly one, via `flagSet.StringP("config", "c", "",
"config file")`. -/
structure Flag where
  name : String
  shorthand : String
  value : String
  usage : String
  deriving Repr, DecidableEq

/-- The slice of `pflag.FlagSet` the bundle touches: the set's own name and
its list of defined flags. -/
structure FlagSet where
  setName : String
  flags : List Flag
  deriving Repr, DecidableEq

/-- `flagSet.GetString(name)`: the flag's current value, or pflag's
"flag accessed but not defined" error when no flag of that name exists. -/
def FlagSet.getString (fs : FlagSet) (name : String) : Except String String :=
  match fs.flags.find? (fun f => f.name = name) with
  | some f => .ok f.value
  | none => .error ("flag accessed but not defined: " ++ name)

/-- The errors pflag parsing can report, as the bundle distinguishes them:
the help pseudo-error `pflag.ErrHelp`, or a real parse failure. -/
inductive PFlagError
  | errHelp
  | parseFail (msg : String)
  deriving Repr, DecidableEq

/-- Modelled from the spec: the outcome of `flagSet.Parse(os.Args)` (pflag
is an external library).  Parsing assigns values to some of the defined
flags and may report an error (a help request or a failure); it never adds
or removes flags. -/
structure ParsedArgs where
  values : String → Option String
  error : Option PFlagError

/-- Modelled from the spec: applying a parse outcome to a flag set updates
the values of the flags the outcome assigns and leaves everything else
(names, shorthands, unassigned defaults) unchanged. -/
def applyParse (pa : ParsedArgs) (fs : FlagSet) : FlagSet :=
  { fs with
    flags := fs.flags.map fun f =>
      match pa.values f.name with
      | some v => { f with value := v }
      | none => f }

/-- `Bundle.provideFlagSet`, with pflag parsing abstracted into a
`ParsedArgs` outcome: build a flag set named `BundleName` holding the one
string flag `config` (shorthand `c`, default empty), parse the process
arguments into it, erase `pflag.ErrHelp`, and return any other parse error
alongside the set. -/
def provideFlagSet (pa : ParsedArgs) : FlagSet × Option PFlagError :=
  let flagSet : FlagSet :=
    { setName := "viper", flags := [⟨"config", "c", "", "config file"⟩] }
  let parsed := applyParse pa flagSet
  match pa.error with
  | some .errHelp => (parsed, none)
  | e => (parsed, e)

/-- A value stored in the ambient `context.Context`: a string, or anything
whose type assertion `.(string)` fails. -/
inductive CtxValue
  | str (s : String)
  | other
  deriving Repr, DecidableEq

/-- The ambient context, looked up by string key as `ctx.Value(key)`. -/
abbrev Ctx := String → Option CtxValue

/-- Build a context from an association list, for concrete runs. -/
def ctxOf (l : List (String × CtxValue)) : Ctx :=
  fun k => (l.find? (fun p => p.1 = k)).map (fun p => p.2)

/-- The filesystem, as viper's reader sees it: each present file's path
paired with whether its contents parse successfully. -/
abbrev FileSystem := List (String × Bool)

/-- Whether a file exists, and if so whether it parses. -/
def lookupFile (fsys : FileSystem) (file : String) : Option Bool :=
  (fsys.find? (fun p => p.1 = file)).map (fun p => p.2)

/-- The ways viper's `ReadInConfig` can fail: an explicitly set file that
does not exist, discovery finding no file of the configured name on any
search path, or a file that was found but failed to parse. -/
inductive ReadError
  | fileNotFound (file : String)
  | configFileNotFound (name : String) (paths : List String)
  | parseFailure (file : String)
  deriving Repr, DecidableEq

/-- Modelled from the spec: viper's `ReadInConfig` (external library).  If
an explicit config file is set it is the only file tried; otherwise the
file named `configName` + "." + `configType` is discovered on the search
paths in order.  Returns the file actually read on success. -/
def readInConfig (fsys : FileSystem) (s : ViperState) : Except ReadError String :=
  match s.configFile with
  | some f =>
    match lookupFile fsys f with
    | some true => .ok f
    | some false => .error (.parseFailure f)
    | none => .error (.fileNotFound f)
  | none =>
    let ext := s.configType.getD "json"
    let candidates := s.configPaths.map fun p => p ++ "/" ++ s.configName ++ "." ++ ext
    match candidates.find? (fun c => (lookupFile fsys c).isSome) with
    | some c =>
      if lookupFile fsys c = some true then .ok c else .error (.parseFailure c)
    | none => .error (.configFileNotFound s.configName s.configPaths)

/-- The errors `Bundle.provideViper` can return: the sentinel
`ErrUndefinedAppPath`, the wrap "unable to get config flag value : %w" of a
`GetString` failure, and the wrap "unable to read config file : '%s' : %w"
of a `ReadInConfig` failure — whose string field is the `configFile`
variable, i.e. the flag value. -/
inductive BuildError
  | undefinedAppPath
  | flagError (msg : String)
  | readConfigError (file : String) (cause : ReadError)
  deriving Repr, DecidableEq

/-- `Bundle.provideViper` of the v3 source.  The Go method mutates the
bundle's shared `b.viper` in place, so the model threads the state: the
result is the bundle's viper state after the call, paired with what the
method returns (the viper object on success, an error otherwise).
Step by step: require `ctx.Value("app.path")` to be a string (else the
sentinel error), add it as a search path, read the `config` flag (wrapping
a `GetString` failure), set it as the explicit config file when non-empty,
then `ReadInConfig` (wrapping a failure with the flag value). -/
def provideViper (fsys : FileSystem) (ctx : Ctx) (flagSet : FlagSet)
    (s : ViperState) : ViperState × Except BuildError ViperState :=
  match ctx "app.path" with
  | some (.str path) =>
    let s1 := { s with configPaths := s.configPaths ++ [path] }
    match flagSet.getString "config" with
    | .error m => (s1, .error (.flagError m))
    | .ok configFile =>
      let s2 := if 0 < configFile.length then { s1 with configFile := some configFile } else s1
      match readInConfig fsys s2 with
      | .error e => (s2, .error (.readConfigError configFile e))
      | .ok _ => (s2, .ok s2)
  | _ => (s, .error .undefinedAppPath)

/-- The file component a `ReadError` reports: the file that was being read
for an explicit-file failure, the configured name for a discovery miss. -/
def ReadError.fileOf : ReadError → String
  | .fileNotFound f => f
  | .configFileNotFound n _ => n
  | .parseFailure f => f

/-- Modelled from the spec: the environment variable viper consults for a
configuration key — upper-case the prefixed key and apply the key
replacer (external library behavior). -/
def envVarName (s : ViperState) (key : String) : String :=
  let merged :=
    if s.envPrefix = "" then key else s.envPrefix ++ "_" ++ key
  let upper := String.mk (merged.data.map Char.toUpper)
  match s.envKeyReplacer with
  | some r =>
    String.mk (upper.data.map fun c =>
      match r.find? (fun p => p.1 = c) with
      | some p => p.2
      | none => c)
  | none => upper

/-- Modelled from the spec: a key lookup on the configuration object with
automatic-env enabled checks the correspondingly named environment variable
first and falls back to the file/default value (external library
behavior). -/
def getValue (env : String → Option String) (fileVals : String → Option String)
    (s : ViperState) (key : String) : Option String :=
  if s.automaticEnvOn then
    match env (envVarName s key) with
    | some v => some v
    | none => fileVals key
  else fileVals key

/-- The last value an option list writes through a given per-option
projection, starting from an accumulator: a fold keeping the most recent
`some`. -/
def lastSetFrom {α : Type} (f : BOption → Option α) (acc : Option α)
    (opts : List BOption) : Option α :=
  opts.foldl (fun a o => (f o).or a) acc

/-- The last value an option list writes through a projection, if any. -/
def lastSet {α : Type} (f : BOption → Option α) (opts : List BOption) : Option α :=
  lastSetFrom f none opts

/-- The value an `EnvPrefix` option writes. -/
def writesEnvPrefix : BOption → Option String
  | .envPrefix v => some v
  | _ => none

/-- The value an `AutomaticEnv` option writes. -/
def writesAutomaticEnv : BOption → Option Bool
  | .automaticEnv => some true
  | _ => none

/-- The value an `EnvKeyReplacer` option writes. -/
def writesEnvKeyReplacer : BOption → Option (Option Replacer)
  | .envKeyReplacer r => some (some r)
  | _ => none

/-- The value a `ConfigFile` option writes. -/
def writesConfigFile : BOption → Option (Option String)
  | .configFile v => some (some v)
  | _ => none

/-- The value a `ConfigName` option writes. -/
def writesConfigName : BOption → Option String
  | .configName v => some v
  | _ => none

/-- The value a `ConfigType` option writes. -/
def writesConfigType : BOption → Option (Option String)
  | .configType v => some (some v)
  | _ => none

/-- The search paths an option list adds, in order. -/
def pathsOf (opts : List BOption) : List String :=
  opts.filterMap fun o =>
    match o with
    | .configPath v => some v
    | _ => none

theorem lastSetFrom_or {α : Type} (f : BOption → Option α) :
    ∀ (opts : List BOption) (acc : Option α),
      lastSetFrom f acc opts = (lastSetFrom f none opts).or acc := by
  intro opts
  induction opts with
  | nil => intro acc; simp [lastSetFrom]
  | cons o l ih =>
    intro acc
    simp only [lastSetFrom, List.foldl_cons] at *
    rw [ih ((f o).or acc), ih ((f o).or none), Option.or_assoc, Option.or_none]

theorem lastSet_cons {α : Type} (f : BOption → Option α) (o : BOption)
    (l : List BOption) : lastSet f (o :: l) = (lastSet f l).or (f o) := by
  simp only [lastSet, lastSetFrom, List.foldl_cons]
  rw [show List.foldl (fun a o => (f o).or a) ((f o).or none) l
        = lastSetFrom f ((f o).or none) l from rfl, lastSetFrom_or, Option.or_none]
  rfl

theorem lastSet_append {α : Type} (f : BOption → Option α)
    (l₁ l₂ : List BOption) :
    lastSet f (l₁ ++ l₂) = (lastSet f l₂).or (lastSet f l₁) := by
  simp only [lastSet, lastSetFrom, List.foldl_append]
  rw [show List.foldl (fun a o => (f o).or a) (List.foldl (fun a o => (f o).or a) none l₁) l₂
        = lastSetFrom f (lastSetFrom f none l₁) l₂ from rfl, lastSetFrom_or]
  rfl

theorem foldl_field {α : Type} (f : BOption → Option α) (g : ViperState → α)
    (hg : ∀ s o, g (applyOption s o) = (f o).getD (g s)) :
    ∀ (opts : List BOption) (init : ViperState),
      g (List.foldl applyOption init opts) = (lastSet f opts).getD (g init) := by
  intro opts
  induction opts with
  | nil => intro init; simp [lastSet, lastSetFrom]
  | cons o l ih =>
    intro init
    rw [List.foldl_cons, ih, hg, lastSet_cons]
    rcases lastSet f l with _ | a <;> simp [Option.or]

theorem foldl_configPaths :
    ∀ (opts : List BOption) (init : ViperState),
      (List.foldl applyOption init opts).configPaths
        = init.configPaths ++ pathsOf opts := by
  intro opts
  induction opts with
  | nil => intro init; simp [pathsOf]
  | cons o l ih =>
    intro init
    rw [List.foldl_cons, ih]
    cases o <;> simp [applyOption, pathsOf, List.filterMap_cons]

/-! Concrete inputs used for witnesses and counterexamples. -/

/-- A context carrying `"app.path" = "/app"` and nothing else. -/
def ctxApp : Ctx := ctxOf [("app.path", CtxValue.str "/app")]

/-- The bundle's flag set after a parse that assigns nothing: the `config`
flag keeps its empty default. -/
def flagsEmptyVal : FlagSet := (provideFlagSet ⟨fun _ => none, none⟩).1

/-- The bundle's flag set after a parse assigning `--config custom.yaml`. -/
def flagsCustom : FlagSet :=
  (provideFlagSet ⟨fun n => if n = "config" then some "custom.yaml" else none, none⟩).1

/-- The bundle's flag set after a parse assigning `--config missing.json`. -/
def flagsMissing : FlagSet :=
  (provideFlagSet ⟨fun n => if n = "config" then some "missing.json" else none, none⟩).1

/-- A filesystem with a well-formed `/app/config.json`. -/
def fsysGood : FileSystem := [("/app/config.json", true)]

/-- A filesystem whose `/app/config.json` exists but fails to parse. -/
def fsysBadJson : FileSystem := [("/app/config.json", false)]

/-- An environment providing only `ENV_FOO_BAR`. -/
def envSample : String → Option String :=
  fun n => if n = "ENV_FOO_BAR" then some "from-env" else none

/-! Helper lemmas. -/

theorem or_some_getD {α : Type} (a : Option α) (d x : α) :
    (a.or (some d)).getD x = a.getD d := by
  cases a <;> rfl

theorem provideViper_ok_path (fsys : FileSystem) (ctx : Ctx) (flagSet : FlagSet)
    (s : ViperState) (path v : String)
    (hpath : ctx "app.path" = some (CtxValue.str path))
    (hflag : flagSet.getString "config" = Except.ok v) :
    provideViper fsys ctx flagSet s =
      (let s1 := { s with configPaths := s.configPaths ++ [path] }
       let s2 := if 0 < v.length then { s1 with configFile := some v } else s1
       match readInConfig fsys s2 with
       | .error e => (s2, Except.error (BuildError.readConfigError v e))
       | .ok _ => (s2, Except.ok s2)) := by
  simp only [provideViper, hpath, hflag]

theorem readInConfig_configFile (fsys : FileSystem) (s : ViperState) (v : String)
    (h : s.configFile = some v) :
    readInConfig fsys s = Except.ok v ∨
    readInConfig fsys s = Except.error (ReadError.fileNotFound v) ∨
    readInConfig fsys s = Except.error (ReadError.parseFailure v) := by
  unfold readInConfig
  rw [h]
  cases h2 : lookupFile fsys v with
  | none => simp [h2]
  | some b => cases b <;> simp [h2]

theorem readInConfig_configFile_ok (fsys : FileSystem) (s : ViperState)
    (v f : String) (h : s.configFile = some v)
    (hok : readInConfig fsys s = Except.ok f) : f = v := by
  rcases readInConfig_configFile fsys s v h with h1 | h1 | h1 <;> rw [h1] at hok
  · injection hok with h2; exact h2.symm
  · exact Except.noConfusion hok
  · exact Except.noConfusion hok

theorem readInConfig_configFile_error (fsys : FileSystem) (s : ViperState)
    (v : String) (e : ReadError) (h : s.configFile = some v)
    (he : readInConfig fsys s = Except.error e) : e.fileOf = v := by
  rcases readInConfig_configFile fsys s v h with h1 | h1 | h1 <;> rw [h1] at he
  · exact Except.noConfusion he
  · injection he with h2; rw [← h2]; rfl
  · injection he with h2; rw [← h2]; rfl

theorem provideViper_fst_ok (fsys : FileSystem) (ctx : Ctx) (flagSet : FlagSet)
    (s : ViperState) (path v : String)
    (hpath : ctx "app.path" = some (CtxValue.str path))
    (hflag : flagSet.getString "config" = Except.ok v) :
    (provideViper fsys ctx flagSet s).1 =
      if 0 < v.length then
        { s with configPaths := s.configPaths ++ [path], configFile := some v }
      else { s with configPaths := s.configPaths ++ [path] } := by
  by_cases hv : 0 < v.length
  · simp only [provideViper, hpath, hflag, if_pos hv]
    cases hr : readInConfig fsys
        { s with configPaths := s.configPaths ++ [path], configFile := some v } <;>
      simp [hr]
  · simp only [provideViper, hpath, hflag, if_neg hv]
    cases hr : readInConfig fsys
        { s with configPaths := s.configPaths ++ [path] } <;>
      simp [hr]

theorem provideViper_snd_read (fsys : FileSystem) (ctx : Ctx) (flagSet : FlagSet)
    (s : ViperState) (path v : String)
    (hpath : ctx "app.path" = some (CtxValue.str path))
    (hflag : flagSet.getString "config" = Except.ok v) :
    (provideViper fsys ctx flagSet s).2 =
      match readInConfig fsys (provideViper fsys ctx flagSet s).1 with
      | .error e => Except.error (BuildError.readConfigError v e)
      | .ok _ => Except.ok ((provideViper fsys ctx flagSet s).1) := by
  by_cases hv : 0 < v.length
  · simp only [provideViper, hpath, hflag, if_pos hv]
    cases hr : readInConfig fsys
        { s with configPaths := s.configPaths ++ [path], configFile := some v } <;>
      simp [hr]
  · simp only [provideViper, hpath, hflag, if_neg hv]
    cases hr : readInConfig fsys
        { s with configPaths := s.configPaths ++ [path] } <;>
      simp [hr]

theorem provideViper_missing_path (fsys : FileSystem) (ctx : Ctx)
    (flagSet : FlagSet) (s : ViperState)
    (h : ∀ p, ctx "app.path" ≠ some (CtxValue.str p)) :
    provideViper fsys ctx flagSet s = (s, Except.error BuildError.undefinedAppPath) := by
  cases hc : ctx "app.path" with
  | none => simp [provideViper, hc]
  | some v =>
    cases v with
    | str p => exact absurd hc (h p)
    | other => simp [provideViper, hc]

theorem provideViper_flag_error (fsys : FileSystem) (ctx : Ctx)
    (flagSet : FlagSet) (s : ViperState) (path m : String)
    (hpath : ctx "app.path" = some (CtxValue.str path))
    (hflag : flagSet.getString "config" = Except.error m) :
    provideViper fsys ctx flagSet s =
      ({ s with configPaths := s.configPaths ++ [path] },
        Except.error (BuildError.flagError m)) := by
  simp [provideViper, hpath, hflag]

/-! The claims. -/

/-- C1: for every DI context in which the key `"app.path"` is absent or
not a string, `provideViper` returns the `ErrUndefinedAppPath` sentinel
error, produces no configuration object, and leaves the bundle state
untouched. -/
theorem claim_C1_undefined_app_path (fsys : FileSystem) (ctx : Ctx)
    (flagSet : FlagSet) (s : ViperState)
    (h : ∀ p, ctx "app.path" ≠ some (CtxValue.str p)) :
    provideViper fsys ctx flagSet s = (s, Except.error BuildError.undefinedAppPath) :=
  provideViper_missing_path fsys ctx flagSet s h

/-- C1 witness: a context with no `"app.path"` entry at all. -/
theorem claim_C1_undefined_app_path_witness :
    provideViper [] (ctxOf []) flagsEmptyVal viperNew
      = (viperNew, Except.error BuildError.undefinedAppPath) :=
  claim_C1_undefined_app_path [] (ctxOf []) flagsEmptyVal viperNew
    (by intro p hp; simp [ctxOf] at hp)

/-- C3 counterexample: two `ConfigPath` options accumulate; the resulting
search-path list is `["a", "b"]`, not the last-written `["b"]`, so
last-write-wins fails for the config search path. -/
theorem claim_C3_counterexample :
    (NewBundleWithConfig [BOption.configPath "a", BOption.configPath "b"]).configPaths
      = ["a", "b"]
    ∧ (NewBundleWithConfig [BOption.configPath "a", BOption.configPath "b"]).configPaths
      ≠ ["b"] := by
  exact ⟨rfl, by decide⟩

/-- C3 amended: `NewBundleWithConfig` applies the options in order to a
fresh configuration object; every non-additive setting equals the last
value written for it (or the fresh object's value when never written),
while the config search path is additive: the paths of all `ConfigPath`
options, in order of application. -/
theorem claim_C3_last_write_wins (opts : List BOption) :
    (NewBundleWithConfig opts).automaticEnvOn
        = (lastSet writesAutomaticEnv opts).getD viperNew.automaticEnvOn
    ∧ (NewBundleWithConfig opts).envPrefix
        = (lastSet writesEnvPrefix opts).getD viperNew.envPrefix
    ∧ (NewBundleWithConfig opts).envKeyReplacer
        = (lastSet writesEnvKeyReplacer opts).getD viperNew.envKeyReplacer
    ∧ (NewBundleWithConfig opts).configFile
        = (lastSet writesConfigFile opts).getD viperNew.configFile
    ∧ (NewBundleWithConfig opts).configName
        = (lastSet writesConfigName opts).getD viperNew.configName
    ∧ (NewBundleWithConfig opts).configType
        = (lastSet writesConfigType opts).getD viperNew.configType
    ∧ (NewBundleWithConfig opts).configPaths = pathsOf opts := by
  refine ⟨?_, ?_, ?_, ?_, ?_, ?_, ?_⟩
  · exact foldl_field writesAutomaticEnv ViperState.automaticEnvOn
      (by intro s o; cases o <;> rfl) opts viperNew
  · exact foldl_field writesEnvPrefix ViperState.envPrefix
      (by intro s o; cases o <;> rfl) opts viperNew
  · exact foldl_field writesEnvKeyReplacer ViperState.envKeyReplacer
      (by intro s o; cases o <;> rfl) opts viperNew
  · exact foldl_field writesConfigFile ViperState.configFile
      (by intro s o; cases o <;> rfl) opts viperNew
  · exact foldl_field writesConfigName ViperState.configName
      (by intro s o; cases o <;> rfl) opts viperNew
  · exact foldl_field writesConfigType ViperState.configType
      (by intro s o; cases o <;> rfl) opts viperNew
  · have h := foldl_configPaths opts viperNew
    simpa [viperNew] using h

/-- C4: with no options supplied, the bundle is built with the default
option set: automatic env on, env prefix `"ENV"`, key replacer `"." ↦ "_"`,
config name `"config"`, config type `"json"` (and no explicit file or
search paths). -/
theorem claim_C4_default_options :
    NewBundle [] =
      { automaticEnvOn := true
        envPrefix := "ENV"
        envKeyReplacer := some [('.', '_')]
        configFile := none
        configName := "config"
        configType := some "json"
        configPaths := [] } := rfl

/-- C10: `NewBundle` applies the five defaults first and the caller's
options afterward in caller order: it equals `NewBundleWithConfig` on
`defaultOptions ++ options`, and each non-additive setting equals the last
caller-written value, with the corresponding default as fallback; no
default adds a search path. -/
theorem claim_C10_defaults_then_caller (opts : List BOption) :
    NewBundle opts = NewBundleWithConfig (defaultOptions ++ opts)
    ∧ (NewBundle opts).automaticEnvOn
        = (lastSet writesAutomaticEnv opts).getD true
    ∧ (NewBundle opts).envPrefix = (lastSet writesEnvPrefix opts).getD "ENV"
    ∧ (NewBundle opts).envKeyReplacer
        = (lastSet writesEnvKeyReplacer opts).getD (some [('.', '_')])
    ∧ (NewBundle opts).configFile = (lastSet writesConfigFile opts).getD none
    ∧ (NewBundle opts).configName = (lastSet writesConfigName opts).getD "config"
    ∧ (NewBundle opts).configType = (lastSet writesConfigType opts).getD (some "json")
    ∧ (NewBundle opts).configPaths = pathsOf opts := by
  refine ⟨rfl, ?_, ?_, ?_, ?_, ?_, ?_, ?_⟩
  · have h := foldl_field writesAutomaticEnv ViperState.automaticEnvOn
      (by intro s o; cases o <;> rfl) (defaultOptions ++ opts) viperNew
    rw [lastSet_append,
      show lastSet writesAutomaticEnv defaultOptions = some true from rfl,
      or_some_getD] at h
    exact h
  · have h := foldl_field writesEnvPrefix ViperState.envPrefix
      (by intro s o; cases o <;> rfl) (defaultOptions ++ opts) viperNew
    rw [lastSet_append,
      show lastSet writesEnvPrefix defaultOptions = some "ENV" from rfl,
      or_some_getD] at h
    exact h
  · have h := foldl_field writesEnvKeyReplacer ViperState.envKeyReplacer
      (by intro s o; cases o <;> rfl) (defaultOptions ++ opts) viperNew
    rw [lastSet_append,
      show lastSet writesEnvKeyReplacer defaultOptions = some (some [('.', '_')]) from rfl,
      or_some_getD] at h
    exact h
  · have h := foldl_field writesConfigFile ViperState.configFile
      (by intro s o; cases o <;> rfl) (defaultOptions ++ opts) viperNew
    rw [lastSet_append,
      show lastSet writesConfigFile defaultOptions = none from rfl,
      Option.or_none] at h
    exact h
  · have h := foldl_field writesConfigName ViperState.configName
      (by intro s o; cases o <;> rfl) (defaultOptions ++ opts) viperNew
    rw [lastSet_append,
      show lastSet writesConfigName defaultOptions = some "config" from rfl,
      or_some_getD] at h
    exact h
  · have h := foldl_field writesConfigType ViperState.configType
      (by intro s o; cases o <;> rfl) (defaultOptions ++ opts) viperNew
    rw [lastSet_append,
      show lastSet writesConfigType defaultOptions = some (some "json") from rfl,
      or_some_getD] at h
    exact h
  · have h := foldl_configPaths (defaultOptions ++ opts) viperNew
    rw [show pathsOf (defaultOptions ++ opts) = pathsOf opts from rfl] at h
    simpa [viperNew] using h

/-- C2: when the parsed `config` flag value is non-empty, resolution sets
it as the explicit config file on the configuration object — and any
successful read then reads exactly that file, regardless of the configured
name, search paths and type; when the flag value is empty, no explicit
config file is set and the object is left to name/path/type discovery
(only the search path is added). -/
theorem claim_C2_config_flag_override (fsys : FileSystem) (ctx : Ctx)
    (flagSet : FlagSet) (s : ViperState) (path v : String)
    (hpath : ctx "app.path" = some (CtxValue.str path))
    (hflag : flagSet.getString "config" = Except.ok v) :
    ((provideViper fsys ctx flagSet s).1 =
      if 0 < v.length then
        { s with configPaths := s.configPaths ++ [path], configFile := some v }
      else { s with configPaths := s.configPaths ++ [path] })
    ∧ (∀ f, 0 < v.length →
        readInConfig fsys (provideViper fsys ctx flagSet s).1 = Except.ok f →
        f = v) := by
  refine ⟨provideViper_fst_ok fsys ctx flagSet s path v hpath hflag, ?_⟩
  intro f hv hok
  have hcf : (provideViper fsys ctx flagSet s).1.configFile = some v := by
    rw [provideViper_fst_ok fsys ctx flagSet s path v hpath hflag, if_pos hv]
  exact readInConfig_configFile_ok fsys _ v f hcf hok

/-- C2 witness: `--config custom.yaml` on a fresh default bundle sets the
explicit file and the read uses `custom.yaml`, not `/app/config.json`. -/
theorem claim_C2_config_flag_override_witness :
    ctxApp "app.path" = some (CtxValue.str "/app")
    ∧ flagsCustom.getString "config" = Except.ok "custom.yaml"
    ∧ ((provideViper [("custom.yaml", true)] ctxApp flagsCustom (NewBundle [])).1 =
        if 0 < "custom.yaml".length then
          { NewBundle [] with
              configPaths := (NewBundle []).configPaths ++ ["/app"]
              configFile := some "custom.yaml" }
        else { NewBundle [] with
                configPaths := (NewBundle []).configPaths ++ ["/app"] })
    ∧ (∀ f, 0 < "custom.yaml".length →
        readInConfig [("custom.yaml", true)]
            (provideViper [("custom.yaml", true)] ctxApp flagsCustom (NewBundle [])).1
          = Except.ok f →
        f = "custom.yaml") :=
  ⟨rfl, rfl,
    (claim_C2_config_flag_override [("custom.yaml", true)] ctxApp flagsCustom
      (NewBundle []) "/app" "custom.yaml" rfl rfl).1,
    (claim_C2_config_flag_override [("custom.yaml", true)] ctxApp flagsCustom
      (NewBundle []) "/app" "custom.yaml" rfl rfl).2⟩

/-- C5: the flag-set stage builds a set containing exactly one string flag
named `config` with shorthand `c` and empty default, parses the arguments
into it, reports success when parsing signals a help request or succeeds,
and passes any other parse error through as the stage error. -/
theorem claim_C5_flag_set_stage (pa : ParsedArgs) :
    (provideFlagSet pa).1.flags.map Flag.name = ["config"]
    ∧ (provideFlagSet pa).1.flags.map Flag.shorthand = ["c"]
    ∧ (pa.values "config" = none →
        (provideFlagSet pa).1.flags.map Flag.value = [""])
    ∧ (∀ v, pa.values "config" = some v →
        (provideFlagSet pa).1.flags.map Flag.value = [v])
    ∧ (pa.error = some PFlagError.errHelp → (provideFlagSet pa).2 = none)
    ∧ (pa.error = none → (provideFlagSet pa).2 = none)
    ∧ (∀ m, pa.error = some (PFlagError.parseFail m) →
        (provideFlagSet pa).2 = some (PFlagError.parseFail m)) := by
  have hfst : (provideFlagSet pa).1 =
      applyParse pa { setName := "viper", flags := [⟨"config", "c", "", "config file"⟩] } := by
    rcases he : pa.error with _ | e
    · simp [provideFlagSet, he]
    · cases e <;> simp [provideFlagSet, he]
  refine ⟨?_, ?_, ?_, ?_, ?_, ?_, ?_⟩
  · rw [hfst]; rcases hv : pa.values "config" <;> simp [applyParse, hv]
  · rw [hfst]; rcases hv : pa.values "config" <;> simp [applyParse, hv]
  · intro hv; rw [hfst]; simp [applyParse, hv]
  · intro v hv; rw [hfst]; simp [applyParse, hv]
  · intro he; simp [provideFlagSet, he]
  · intro he; simp [provideFlagSet, he]
  · intro m he; simp [provideFlagSet, he]

/-- C5 witness: a help-requesting parse yields no stage error while the
set still holds the single `config` flag; a real parse failure is passed
through. -/
theorem claim_C5_flag_set_stage_witness :
    (provideFlagSet ⟨fun _ => none, some PFlagError.errHelp⟩).2 = none
    ∧ (provideFlagSet ⟨fun _ => none, some PFlagError.errHelp⟩).1.flags.map Flag.name
        = ["config"]
    ∧ (provideFlagSet ⟨fun _ => none, some PFlagError.errHelp⟩).1.flags.map Flag.value
        = [""]
    ∧ (provideFlagSet ⟨fun _ => none,
        some (PFlagError.parseFail "unknown flag")⟩).2
        = some (PFlagError.parseFail "unknown flag") :=
  ⟨(claim_C5_flag_set_stage ⟨fun _ => none, some PFlagError.errHelp⟩).2.2.2.2.1 rfl,
    (claim_C5_flag_set_stage ⟨fun _ => none, some PFlagError.errHelp⟩).1,
    (claim_C5_flag_set_stage ⟨fun _ => none, some PFlagError.errHelp⟩).2.2.1 rfl,
    (claim_C5_flag_set_stage ⟨fun _ => none,
      some (PFlagError.parseFail "unknown flag")⟩).2.2.2.2.2.2 "unknown flag" rfl⟩

/-- C6 counterexample: with an empty `--config` value and a discovered
`/app/config.json` that fails to parse, the wrap names the flag value
`""`, not the attempted file `/app/config.json`: the claim that the
resolution error always carries the attempted file name is false. -/
theorem claim_C6_counterexample :
    (provideViper fsysBadJson ctxApp flagsEmptyVal (NewBundle [])).2
      = Except.error
          (BuildError.readConfigError "" (ReadError.parseFailure "/app/config.json"))
    ∧ ("" : String) ≠ "/app/config.json" :=
  ⟨rfl, by decide⟩

/-- C6 amended: whenever the read-config operation fails, resolution wraps
the underlying error together with the `--config` flag value; when that
value is non-empty (the explicit-file case, including a nonexistent file)
it is exactly the file the read attempted. -/
theorem claim_C6_read_error_wrap (fsys : FileSystem) (ctx : Ctx)
    (flagSet : FlagSet) (s : ViperState) (path v : String) (e : ReadError)
    (hpath : ctx "app.path" = some (CtxValue.str path))
    (hflag : flagSet.getString "config" = Except.ok v)
    (hread : readInConfig fsys (provideViper fsys ctx flagSet s).1
      = Except.error e) :
    (provideViper fsys ctx flagSet s).2
        = Except.error (BuildError.readConfigError v e)
    ∧ (0 < v.length → e.fileOf = v) := by
  constructor
  · rw [provideViper_snd_read fsys ctx flagSet s path v hpath hflag, hread]
  · intro hv
    have hcf : (provideViper fsys ctx flagSet s).1.configFile = some v := by
      rw [provideViper_fst_ok fsys ctx flagSet s path v hpath hflag, if_pos hv]
    exact readInConfig_configFile_error fsys _ v e hcf hread

/-- C6 amended witness: `--config missing.json` on an empty filesystem
fails with a wrap naming `missing.json`, the attempted file. -/
theorem claim_C6_read_error_wrap_witness :
    ctxApp "app.path" = some (CtxValue.str "/app")
    ∧ flagsMissing.getString "config" = Except.ok "missing.json"
    ∧ readInConfig [] (provideViper [] ctxApp flagsMissing (NewBundle [])).1
        = Except.error (ReadError.fileNotFound "missing.json")
    ∧ (provideViper [] ctxApp flagsMissing (NewBundle [])).2
        = Except.error (BuildError.readConfigError "missing.json"
            (ReadError.fileNotFound "missing.json"))
    ∧ (ReadError.fileNotFound "missing.json").fileOf = "missing.json" :=
  ⟨rfl, rfl, rfl,
    (claim_C6_read_error_wrap [] ctxApp flagsMissing (NewBundle []) "/app"
      "missing.json" (ReadError.fileNotFound "missing.json") rfl rfl rfl).1,
    (claim_C6_read_error_wrap [] ctxApp flagsMissing (NewBundle []) "/app"
      "missing.json" (ReadError.fileNotFound "missing.json") rfl rfl rfl).2
      (by decide)⟩

/-- C7 counterexample: a failing run is not state-preserving.  With a
valid `"app.path"`, an empty flag value and no config file on disk, the
read fails — yet the bundle's configuration object has already gained the
search path `/app`, so the bundle state is not unchanged. -/
theorem claim_C7_counterexample :
    (provideViper [] ctxApp flagsEmptyVal (NewBundle [])).2
      = Except.error (BuildError.readConfigError ""
          (ReadError.configFileNotFound "config" ["/app"]))
    ∧ (provideViper [] ctxApp flagsEmptyVal (NewBundle [])).1
        = { NewBundle [] with configPaths := ["/app"] }
    ∧ { NewBundle [] with configPaths := ["/app"] } ≠ NewBundle [] :=
  ⟨rfl, rfl, by decide⟩

/-- C7 amended: a failing run produces no configuration object (the error
propagates) and a successful run returns exactly the bundle's fully
initialized object; the options-set fields are never touched by
resolution, and a missing `"app.path"` fails before any mutation — but a
flag or read failure occurs after the search path (and possibly the
explicit file) was already added to the bundle state. -/
theorem claim_C7_no_partial_object (fsys : FileSystem) (ctx : Ctx)
    (flagSet : FlagSet) (s : ViperState) :
    ((provideViper fsys ctx flagSet s).1.automaticEnvOn = s.automaticEnvOn
      ∧ (provideViper fsys ctx flagSet s).1.envPrefix = s.envPrefix
      ∧ (provideViper fsys ctx flagSet s).1.envKeyReplacer = s.envKeyReplacer
      ∧ (provideViper fsys ctx flagSet s).1.configName = s.configName
      ∧ (provideViper fsys ctx flagSet s).1.configType = s.configType)
    ∧ ((∀ p, ctx "app.path" ≠ some (CtxValue.str p)) →
        provideViper fsys ctx flagSet s = (s, Except.error BuildError.undefinedAppPath))
    ∧ (∀ o, (provideViper fsys ctx flagSet s).2 = Except.ok o →
        o = (provideViper fsys ctx flagSet s).1) := by
  refine ⟨?_, provideViper_missing_path fsys ctx flagSet s, ?_⟩
  · cases hc : ctx "app.path" with
    | none => simp [provideViper_missing_path fsys ctx flagSet s
        (by intro p hp; rw [hc] at hp; exact Option.noConfusion hp)]
    | some v =>
      cases v with
      | other => simp [provideViper_missing_path fsys ctx flagSet s
          (by intro p hp; rw [hc] at hp; injection hp with h2; exact CtxValue.noConfusion h2)]
      | str p =>
        cases hf : flagSet.getString "config" with
        | error m => simp [provideViper_flag_error fsys ctx flagSet s p m hc hf]
        | ok v =>
          rw [provideViper_fst_ok fsys ctx flagSet s p v hc hf]
          by_cases hv : 0 < v.length <;> simp [hv]
  · intro o ho
    cases hc : ctx "app.path" with
    | none =>
      rw [provideViper_missing_path fsys ctx flagSet s
        (by intro p hp; rw [hc] at hp; exact Option.noConfusion hp)] at ho
      exact Except.noConfusion ho
    | some v =>
      cases v with
      | other =>
        rw [provideViper_missing_path fsys ctx flagSet s
          (by intro p hp; rw [hc] at hp; injection hp with h2;
              exact CtxValue.noConfusion h2)] at ho
        exact Except.noConfusion ho
      | str p =>
        cases hf : flagSet.getString "config" with
        | error m =>
          rw [provideViper_flag_error fsys ctx flagSet s p m hc hf] at ho
          exact Except.noConfusion ho
        | ok v =>
          rw [provideViper_snd_read fsys ctx flagSet s p v hc hf] at ho
          cases hr : readInConfig fsys (provideViper fsys ctx flagSet s).1 <;>
            rw [hr] at ho
          · exact Except.noConfusion ho
          · injection ho with h2; exact h2.symm

/-- C7 amended witness: a missing `"app.path"` leaves the state unchanged,
and a successful run hands out exactly the initialized object. -/
theorem claim_C7_no_partial_object_witness :
    provideViper [] (ctxOf []) flagsEmptyVal (NewBundle [])
      = (NewBundle [], Except.error BuildError.undefinedAppPath)
    ∧ ({ NewBundle [] with configPaths := ["/app"] } : ViperState)
        = (provideViper fsysGood ctxApp flagsEmptyVal (NewBundle [])).1 :=
  ⟨(claim_C7_no_partial_object [] (ctxOf []) flagsEmptyVal (NewBundle [])).2.1
      (by intro p hp; simp [ctxOf] at hp),
    (claim_C7_no_partial_object fsysGood ctxApp flagsEmptyVal (NewBundle [])).2.2
      { NewBundle [] with configPaths := ["/app"] } rfl⟩

/-- C8: with a string `"app.path"`, an empty `--config` flag value and a
well-formed `config.json` on that path, resolution from the default
options succeeds: the path is added as the only search path and the file
read is `path ++ "/config.json"`. -/
theorem claim_C8_default_discovery (fsys : FileSystem) (ctx : Ctx)
    (flagSet : FlagSet) (path : String)
    (hpath : ctx "app.path" = some (CtxValue.str path))
    (hflag : flagSet.getString "config" = Except.ok "")
    (hfile : lookupFile fsys (path ++ "/config.json") = some true) :
    provideViper fsys ctx flagSet (NewBundle [])
      = ({ NewBundle [] with configPaths := [path] },
         Except.ok { NewBundle [] with configPaths := [path] })
    ∧ readInConfig fsys (provideViper fsys ctx flagSet (NewBundle [])).1
        = Except.ok (path ++ "/config.json") := by
  have hc : path ++ "/" ++ "config" ++ "." ++ "json" = path ++ "/config.json" := by
    simp only [String.append_assoc]
    rfl
  have hread : readInConfig fsys
      { automaticEnvOn := true, envPrefix := "ENV", envKeyReplacer := some [('.', '_')],
        configFile := none, configName := "config", configType := some "json",
        configPaths := [path] } = Except.ok (path ++ "/config.json") := by
    simp [readInConfig, hc, hfile]
  have hfst : (provideViper fsys ctx flagSet (NewBundle [])).1
      = { NewBundle [] with configPaths := [path] } := by
    rw [provideViper_fst_ok fsys ctx flagSet (NewBundle []) path "" hpath hflag]
    rfl
  have hsnd : (provideViper fsys ctx flagSet (NewBundle [])).2
      = Except.ok { NewBundle [] with configPaths := [path] } := by
    rw [provideViper_snd_read fsys ctx flagSet (NewBundle []) path "" hpath hflag, hfst,
      show readInConfig fsys ({ NewBundle [] with configPaths := [path] } : ViperState)
        = Except.ok (path ++ "/config.json") from hread]
  exact ⟨Prod.ext hfst hsnd, by rw [hfst]; exact hread⟩

/-- C8 witness: `/app` as app path, empty flag, a well-formed
`/app/config.json`. -/
theorem claim_C8_default_discovery_witness :
    ctxApp "app.path" = some (CtxValue.str "/app")
    ∧ flagsEmptyVal.getString "config" = Except.ok ""
    ∧ lookupFile fsysGood ("/app" ++ "/config.json") = some true
    ∧ provideViper fsysGood ctxApp flagsEmptyVal (NewBundle [])
        = ({ NewBundle [] with configPaths := ["/app"] },
           Except.ok { NewBundle [] with configPaths := ["/app"] })
    ∧ readInConfig fsysGood
        (provideViper fsysGood ctxApp flagsEmptyVal (NewBundle [])).1
        = Except.ok ("/app" ++ "/config.json") :=
  ⟨rfl, rfl, rfl,
    (claim_C8_default_discovery fsysGood ctxApp flagsEmptyVal "/app" rfl rfl rfl).1,
    (claim_C8_default_discovery fsysGood ctxApp flagsEmptyVal "/app" rfl rfl rfl).2⟩

/-- C9: under the default options, the environment variable consulted for
key `"foo.bar"` is `"ENV_FOO_BAR"` (prefix `"ENV"`, upper-casing, `"."`
replaced by `"_"`), and for every key, an environment variable holding a
value supplies or overrides that key's value on the configuration
object. -/
theorem claim_C9_env_override (env fileVals : String → Option String)
    (key v : String)
    (henv : env (envVarName (NewBundle []) key) = some v) :
    envVarName (NewBundle []) "foo.bar" = "ENV_FOO_BAR"
    ∧ getValue env fileVals (NewBundle []) key = some v := by
  constructor
  · decide
  · unfold getValue
    rw [show (NewBundle []).automaticEnvOn = true from rfl]
    simp [henv]

/-- C9 witness: the environment variable `ENV_FOO_BAR` supplies the value
of key `foo.bar` even when the file provides none. -/
theorem claim_C9_env_override_witness :
    envSample (envVarName (NewBundle []) "foo.bar") = some "from-env"
    ∧ envVarName (NewBundle []) "foo.bar" = "ENV_FOO_BAR"
    ∧ getValue envSample (fun _ => none) (NewBundle []) "foo.bar" = some "from-env" :=
  ⟨by decide,
    (claim_C9_env_override envSample (fun _ => none) "foo.bar" "from-env" (by decide)).1,
    (claim_C9_env_override envSample (fun _ => none) "foo.bar" "from-env" (by decide)).2⟩

end GozixViper
